import Mathlib

/-!
Verification of the SafeBank file-integrity-monitor core.

Shallow embedding of the engine found in `monitor_files.py` and
`SafeBank_FIM/monitor.py` (the two files carry the same classifier and
alert-pipeline logic; they differ in the alert detail strings and in how
the dashboard file count is refreshed — both variants are embedded where
they differ).

Modelling conventions:
* file contents are byte lists (`List Nat`); an unreadable file is `none`;
* SHA-256 is abstracted by an arbitrary digest function
  `sha256hex : List Nat → String` applied to the bytes absorbed by the
  incremental accumulator (the hashlib accumulator state is exactly the
  byte sequence fed to `update` so far, so absorption is list append);
* the SMTP interaction is an `Except` outcome: `.error` stands for any
  exception raised inside the `try` block of `send_alert`;
* Python dicts keyed by strings become association lists with
  `List.lookup`; `path in dict` becomes `(lookup path ...).isSome`;
* wall-clock timestamps and path-manipulation helpers
  (`os.path.relpath`, `os.path.basename`) are environment parameters.
-/

namespace SafeBank

/-- One value of the baseline `files` mapping: the JSON object
`{"hash": ..., "size": ..., "last_modified": ..., "permissions": ...}`
written by `create_baseline.py`.  The monitor only ever reads `hash`;
`last_modified` (a float in the JSON) is carried verbatim as a token. -/
structure FileRecord where
  hash : String
  size : Nat
  last_modified : String
  permissions : String
deriving DecidableEq, Repr

/-- The baseline `metadata` object. -/
structure Metadata where
  created : String
  directory : String
  total_files : Nat
deriving DecidableEq, Repr

/-- The parsed baseline JSON: `{"metadata": ..., "files": ...}`.
`metadata = none` models the empty metadata dict `{}`. -/
structure Baseline where
  metadata : Option Metadata
  files : List (String × FileRecord)
deriving DecidableEq, Repr

/-- One entry appended to `DASHBOARD_DATA["alerts"]` by `_trigger_alert`. -/
structure DashAlert where
  time : String
  type : String
  file : String
  path : String
  details : String
deriving DecidableEq, Repr

/-- The mutable `DASHBOARD_DATA` global. -/
structure Dashboard where
  alerts : List DashAlert
  last_scan : String
  file_count : Nat
  last_update : String
deriving DecidableEq, Repr

/-- The state a `FileChangeHandler` reads and writes: its (immutable)
baseline plus the dashboard global. -/
structure HandlerState where
  baseline : Baseline
  dashboard : Dashboard
deriving DecidableEq, Repr

/-- A raw watchdog event: `event.src_path` and `event.is_directory`. -/
structure RawEvent where
  src_path : String
  is_directory : Bool
deriving DecidableEq, Repr

/-- The ambient environment of one event-handling step: the filesystem,
the abstract digest function, path helpers fixed to the monitored root,
the SMTP outcome and the wall clock. -/
structure Env where
  relpath : String → String
  fs : String → Option (List Nat)
  sha256hex : List Nat → String
  smtp : Except String Unit
  now : String
  basename : String → String

/-- The `while True` read loop of `calculate_file_hash`: read 64 KiB
(`f.read(65536)`), stop on an empty read (`if not data: break`),
otherwise absorb the chunk (`sha256.update(data)`) and continue.
`sha256` is the byte sequence absorbed so far. -/
def sha_loop (sha256 : List Nat) (stream : List Nat) : List Nat :=
  if h : stream.take 65536 = [] then sha256
  else sha_loop (sha256 ++ stream.take 65536) (stream.drop 65536)
termination_by stream.length
decreasing_by
  have hs : stream ≠ [] := by
    intro he
    simp [he] at h
  have hp : 0 < stream.length := List.length_pos.mpr hs
  simp only [List.length_drop]
  omega

/-- Model of `FileChangeHandler.calculate_file_hash`: open the file, stream it
through the accumulator in 64 KiB chunks, return the hex digest; any
exception (file unreadable) returns `None`. -/
def calculate_file_hash (env : Env) (file_path : String) : Option String :=
  match env.fs file_path with
  | none => none
  | some bytes => some (env.sha256hex (sha_loop [] bytes))

/-- Modelled from the spec (refinement reference for the hasher):
a one-shot digest of the full byte content of the file. -/
def hash_oneshot (env : Env) (file_path : String) : Option String :=
  (env.fs file_path).map env.sha256hex

/-- Model of `EmailAlertSystem.send_alert`: the whole SMTP interaction sits in a
`try` block; success returns `True`, any exception is caught and the
method returns `False` (after logging) — it never propagates. -/
def send_alert (smtp : Except String Unit) : Bool :=
  match smtp with
  | Except.ok _ => true
  | Except.error _ => false

/-- Accumulator pass behind `py_split`: walk the characters, collecting
the current word reversed, emitting it at each whitespace run and at the
end. -/
def words_aux : List Char → List Char → List String
  | [], [] => []
  | [], cur => [String.mk cur.reverse]
  | c :: cs, cur =>
      if c.isWhitespace then
        if cur = [] then words_aux cs []
        else String.mk cur.reverse :: words_aux cs []
      else words_aux cs (c :: cur)

/-- Python `str.split()` with no argument: split on runs of whitespace,
discarding empty fields. -/
def py_split (s : String) : List String := words_aux s.toList []

/-- Python `s.split()[-1]`: the last field (`""` stands for the
IndexError case, unreachable for the three alert types the monitor
passes). -/
def last_word (s : String) : String :=
  ((py_split s).getLast?).getD ""

/-- The details lookup of `_trigger_alert` in `SafeBank_FIM/monitor.py`:
`{"MODIFIED": ..., "CREATED": ..., "DELETED": ...}.get(alert_type.split()[-1],
"Security-related change detected")`. -/
def alert_details (alert_type : String) : String :=
  if last_word alert_type = "MODIFIED" then "Unauthorized content modification detected"
  else if last_word alert_type = "CREATED" then "Unauthorized file added to system"
  else if last_word alert_type = "DELETED" then "Critical file removed without authorization"
  else "Security-related change detected"

/-- The same details lookup in `monitor_files.py` (older variant, same
keys and the fallback `"Unknown change"`). -/
def alert_details_v1 (alert_type : String) : String :=
  if last_word alert_type = "MODIFIED" then "File content changed"
  else if last_word alert_type = "CREATED" then "New file appeared"
  else if last_word alert_type = "DELETED" then "Critical file removed"
  else "Unknown change"

/-- The dict literal `_trigger_alert` appends to `DASHBOARD_DATA["alerts"]`. -/
def mk_dash_alert (env : Env) (alert_type file_path : String) : DashAlert :=
  { time := env.now
    type := alert_type
    file := env.basename file_path
    path := file_path
    details := alert_details alert_type }

/-- The history cap at the end of `_trigger_alert`:
`if len(alerts) > 50: alerts = alerts[-50:]`. -/
def cap_alerts (alerts : List DashAlert) : List DashAlert :=
  if alerts.length > 50 then alerts.drop (alerts.length - 50) else alerts

/-- Model of `FileChangeHandler._trigger_alert`: build the details string, send
the email (the boolean result is discarded), append the alert to the
dashboard history and apply the 50-entry cap. -/
def trigger_alert (env : Env) (s : HandlerState) (alert_type file_path : String) :
    HandlerState :=
  let _ := send_alert env.smtp
  { s with dashboard := { s.dashboard with
      alerts := cap_alerts (s.dashboard.alerts ++ [mk_dash_alert env alert_type file_path]) } }

/-- Model of `FileChangeHandler._process_event`: compute the path relative to the
monitored root, then classify.  For `MODIFIED`, the Python test
`if current_hash and relative_path in self.baseline["files"]` treats a
`None` or empty-string hash as falsy, which the nested guards mirror. -/
def process_event (env : Env) (s : HandlerState) (file_path change_type : String) :
    HandlerState :=
  let relative_path := env.relpath file_path
  if change_type = "MODIFIED" then
    match calculate_file_hash env file_path, s.baseline.files.lookup relative_path with
    | some current_hash, some record =>
        if current_hash ≠ "" then
          if current_hash ≠ record.hash then trigger_alert env s "File Modified" file_path
          else s
        else s
    | _, _ => s
  else if change_type = "CREATED" then
    if (s.baseline.files.lookup relative_path).isSome then s
    else trigger_alert env s "New File Detected" file_path
  else if change_type = "DELETED" then
    if (s.baseline.files.lookup relative_path).isSome then
      trigger_alert env s "File Deleted" file_path
    else s
  else s

/-- Model of `FileChangeHandler._update_dashboard_data` (`SafeBank_FIM/monitor.py`):
refresh the status snapshot from the current baseline and clock. -/
def update_dashboard_data (now : String) (s : HandlerState) : HandlerState :=
  { s with dashboard := { s.dashboard with
      file_count := s.baseline.files.length
      last_scan := (match s.baseline.metadata with
                    | some m => m.created
                    | none => "Never")
      last_update := now } }

/-- Model of `on_modified` (`SafeBank_FIM/monitor.py`): directory events are
dropped, otherwise process then refresh the dashboard. -/
def on_modified (env : Env) (s : HandlerState) (event : RawEvent) : HandlerState :=
  if event.is_directory then s
  else update_dashboard_data env.now (process_event env s event.src_path "MODIFIED")

/-- Model of `on_created` (`SafeBank_FIM/monitor.py`). -/
def on_created (env : Env) (s : HandlerState) (event : RawEvent) : HandlerState :=
  if event.is_directory then s
  else update_dashboard_data env.now (process_event env s event.src_path "CREATED")

/-- Model of `on_deleted` (`SafeBank_FIM/monitor.py`). -/
def on_deleted (env : Env) (s : HandlerState) (event : RawEvent) : HandlerState :=
  if event.is_directory then s
  else update_dashboard_data env.now (process_event env s event.src_path "DELETED")

/-- Model of `load_baseline`: parse the baseline file; on any exception (missing
or corrupt file) return `{"metadata": {}, "files": {}}`. -/
def load_baseline (parsed : Except String Baseline) : Baseline :=
  match parsed with
  | Except.ok baseline => baseline
  | Except.error _ => { metadata := none, files := [] }

/-- The dashboard file count set by `load_baseline` in `monitor_files.py`
after a successful parse:
`baseline.get("metadata", {}).get("total_files", 0)`. -/
def load_baseline_file_count (baseline : Baseline) : Nat :=
  match baseline.metadata with
  | some m => m.total_files
  | none => 0

/-- The status snapshot the dashboard renders: `file_count` and the
alert count `data.alerts|length`. -/
def status_snapshot (s : HandlerState) : Nat × Nat :=
  (s.dashboard.file_count, s.dashboard.alerts.length)

/-- A sequence of `_trigger_alert` calls, each given
`(alert_type, file_path)`. -/
def run_triggers (env : Env) (s : HandlerState) (events : List (String × String)) :
    HandlerState :=
  events.foldl (fun st ev => trigger_alert env st ev.1 ev.2) s

end SafeBank

namespace SafeBank


/-- Concrete fixture environment: identity path helpers, a filesystem in
which every path reads as the single byte `1`, a digest function mapping
`[1]` to `"d1hash"` and anything else to `"d2hash"`, and an SMTP channel
that fails. -/
def env0 : Env :=
  { relpath := fun p => p
    fs := fun _ => some [1]
    sha256hex := fun bytes => if bytes = [1] then "d1hash" else "d2hash"
    smtp := Except.error "connection refused"
    now := "2025-01-01 00:00:00"
    basename := fun p => p }

/-- Fixture: same as `env0` but every file now reads as byte `2`. -/
def envDiff : Env := { env0 with fs := fun _ => some [2] }

/-- Fixture: same as `env0` but every file is unreadable. -/
def envBad : Env := { env0 with fs := fun _ => none }

/-- Fixture baseline record whose digest matches the `env0` content. -/
def rec0 : FileRecord :=
  { hash := "d1hash", size := 1, last_modified := "0", permissions := "0644" }

/-- Fixture state with an empty baseline and empty alert history. -/
def sEmpty : HandlerState :=
  { baseline := { metadata := none, files := [] }
    dashboard := { alerts := [], last_scan := "Never", file_count := 0, last_update := "" } }

/-- Fixture state whose baseline tracks `a.txt`. -/
def sHas : HandlerState :=
  { baseline := { metadata := none, files := [("a.txt", rec0)] }
    dashboard := { alerts := [], last_scan := "Never", file_count := 1, last_update := "" } }

/-- Fixture non-directory event on `a.txt`. -/
def ev0 : RawEvent := { src_path := "a.txt", is_directory := false }

/-- Fixture directory event. -/
def evDir : RawEvent := { src_path := "a.txt", is_directory := true }

/-- Fixture baseline whose metadata file count disagrees with the
actual mapping (empty mapping, `total_files = 7`). -/
def badBaseline : Baseline :=
  { metadata := some { created := "2025-01-01", directory := "SafeBank_Data", total_files := 7 }
    files := [] }

/-- Fixture metadata consistent with a one-entry mapping. -/
def mGood : Metadata :=
  { created := "2025-01-01", directory := "SafeBank_FIM", total_files := 1 }

/-- Fixture baseline whose metadata file count matches the mapping. -/
def goodBaseline : Baseline := { metadata := some mGood, files := [("a.txt", rec0)] }

theorem sha_loop_absorbs (n : Nat) :
    ∀ stream : List Nat, stream.length ≤ n → ∀ acc : List Nat,
      sha_loop acc stream = acc ++ stream := by
  induction n with
  | zero =>
      intro stream h acc
      have hnil : stream = [] := List.eq_nil_of_length_eq_zero (Nat.le_zero.mp h)
      subst hnil
      rw [sha_loop]
      simp
  | succ n ih =>
      intro stream h acc
      rw [sha_loop]
      by_cases hs : stream.take 65536 = []
      · have hnil : stream = [] := by
          cases stream with
          | nil => rfl
          | cons x xs => simp [List.take] at hs
        subst hnil
        simp [hs]
      · rw [dif_neg hs]
        have hne : stream ≠ [] := by
          intro he
          simp [he] at hs
        have hpos : 0 < stream.length := List.length_pos.mpr hne
        have hlen : (stream.drop 65536).length ≤ n := by
          simp only [List.length_drop]
          omega
        rw [ih (stream.drop 65536) hlen]
        rw [List.append_assoc, List.take_append_drop]

theorem trigger_alert_baseline (env : Env) (s : HandlerState) (a p : String) :
    (trigger_alert env s a p).baseline = s.baseline := rfl

theorem trigger_alert_alerts (env : Env) (s : HandlerState) (a p : String) :
    (trigger_alert env s a p).dashboard.alerts
      = cap_alerts (s.dashboard.alerts ++ [mk_dash_alert env a p]) := rfl

theorem update_dashboard_data_baseline (now : String) (s : HandlerState) :
    (update_dashboard_data now s).baseline = s.baseline := rfl

theorem update_dashboard_data_alerts (now : String) (s : HandlerState) :
    (update_dashboard_data now s).dashboard.alerts = s.dashboard.alerts := rfl

theorem mem_cap_alerts_append (l : List DashAlert) (a : DashAlert) :
    a ∈ cap_alerts (l ++ [a]) := by
  unfold cap_alerts
  split
  · have hle : (l ++ [a]).length - 50 ≤ l.length := by
      simp only [List.length_append, List.length_singleton]
      omega
    rw [List.drop_append_of_le_length hle]
    exact List.mem_append_right _ (List.mem_singleton.mpr rfl)
  · exact List.mem_append_right _ (List.mem_singleton.mpr rfl)

theorem process_event_created (env : Env) (s : HandlerState) (file_path : String) :
    process_event env s file_path "CREATED"
      = if (s.baseline.files.lookup (env.relpath file_path)).isSome then s
        else trigger_alert env s "New File Detected" file_path := by
  unfold process_event
  rw [if_neg (by decide), if_pos rfl]

theorem process_event_deleted (env : Env) (s : HandlerState) (file_path : String) :
    process_event env s file_path "DELETED"
      = if (s.baseline.files.lookup (env.relpath file_path)).isSome then
          trigger_alert env s "File Deleted" file_path
        else s := by
  unfold process_event
  rw [if_neg (by decide), if_neg (by decide), if_pos rfl]

theorem process_event_modified (env : Env) (s : HandlerState) (file_path : String) :
    process_event env s file_path "MODIFIED"
      = match calculate_file_hash env file_path,
              s.baseline.files.lookup (env.relpath file_path) with
        | some current_hash, some record =>
            if current_hash ≠ "" then
              if current_hash ≠ record.hash then
                trigger_alert env s "File Modified" file_path
              else s
            else s
        | _, _ => s := by
  unfold process_event
  rw [if_pos rfl]

theorem process_event_baseline (env : Env) (s : HandlerState) (p t : String) :
    (process_event env s p t).baseline = s.baseline := by
  unfold process_event
  dsimp only
  repeat' first
  | rfl
  | split

theorem on_created_eq (env : Env) (s : HandlerState) (e : RawEvent)
    (hd : e.is_directory = false) :
    on_created env s e
      = update_dashboard_data env.now (process_event env s e.src_path "CREATED") := by
  simp only [on_created, hd, Bool.false_eq_true, if_false]

theorem on_deleted_eq (env : Env) (s : HandlerState) (e : RawEvent)
    (hd : e.is_directory = false) :
    on_deleted env s e
      = update_dashboard_data env.now (process_event env s e.src_path "DELETED") := by
  simp only [on_deleted, hd, Bool.false_eq_true, if_false]

theorem on_modified_eq (env : Env) (s : HandlerState) (e : RawEvent)
    (hd : e.is_directory = false) :
    on_modified env s e
      = update_dashboard_data env.now (process_event env s e.src_path "MODIFIED") := by
  simp only [on_modified, hd, Bool.false_eq_true, if_false]

theorem on_created_alerts_none (env : Env) (s : HandlerState) (e : RawEvent)
    (hd : e.is_directory = false)
    (hl : s.baseline.files.lookup (env.relpath e.src_path) = none) :
    (on_created env s e).dashboard.alerts
      = cap_alerts (s.dashboard.alerts
          ++ [mk_dash_alert env "New File Detected" e.src_path]) := by
  rw [on_created_eq env s e hd, update_dashboard_data_alerts, process_event_created,
    if_neg (by simp [hl]), trigger_alert_alerts]

theorem on_created_alerts_some (env : Env) (s : HandlerState) (e : RawEvent)
    (hd : e.is_directory = false)
    (hl : (s.baseline.files.lookup (env.relpath e.src_path)).isSome = true) :
    (on_created env s e).dashboard.alerts = s.dashboard.alerts := by
  rw [on_created_eq env s e hd, update_dashboard_data_alerts, process_event_created,
    if_pos hl]

theorem on_deleted_alerts_some (env : Env) (s : HandlerState) (e : RawEvent)
    (hd : e.is_directory = false)
    (hl : (s.baseline.files.lookup (env.relpath e.src_path)).isSome = true) :
    (on_deleted env s e).dashboard.alerts
      = cap_alerts (s.dashboard.alerts ++ [mk_dash_alert env "File Deleted" e.src_path]) := by
  rw [on_deleted_eq env s e hd, update_dashboard_data_alerts, process_event_deleted,
    if_pos hl, trigger_alert_alerts]

theorem on_deleted_alerts_none (env : Env) (s : HandlerState) (e : RawEvent)
    (hd : e.is_directory = false)
    (hl : s.baseline.files.lookup (env.relpath e.src_path) = none) :
    (on_deleted env s e).dashboard.alerts = s.dashboard.alerts := by
  rw [on_deleted_eq env s e hd, update_dashboard_data_alerts, process_event_deleted,
    if_neg (by simp [hl])]

theorem on_deleted_baseline (env : Env) (s : HandlerState) (e : RawEvent) :
    (on_deleted env s e).baseline = s.baseline := by
  unfold on_deleted
  split
  · rfl
  · rw [update_dashboard_data_baseline, process_event_baseline]

theorem on_created_dir (env : Env) (s : HandlerState) (e : RawEvent)
    (hd : e.is_directory = true) : on_created env s e = s := by
  simp [on_created, hd]

theorem on_deleted_dir (env : Env) (s : HandlerState) (e : RawEvent)
    (hd : e.is_directory = true) : on_deleted env s e = s := by
  simp [on_deleted, hd]

theorem on_modified_dir (env : Env) (s : HandlerState) (e : RawEvent)
    (hd : e.is_directory = true) : on_modified env s e = s := by
  simp [on_modified, hd]

theorem cap_alerts_of_le (l : List DashAlert) (h : l.length ≤ 50) :
    cap_alerts l = l := by
  unfold cap_alerts
  rw [if_neg (by omega)]

theorem foldl_cap_alerts (f : String × String → DashAlert) :
    ∀ (events : List (String × String)) (l : List DashAlert), l.length ≤ 50 →
      events.foldl (fun acc ev => cap_alerts (acc ++ [f ev])) l
        = (l ++ events.map f).drop (l.length + events.length - 50) := by
  intro events
  induction events with
  | nil =>
      intro l h
      simp [Nat.sub_eq_zero_of_le h]
  | cons e es ih =>
      intro l h
      simp only [List.foldl_cons, List.map_cons, List.length_cons]
      by_cases h50 : l.length = 50
      · have hgt : (l ++ [f e]).length > 50 := by
          simp [h50]
        have hcap : cap_alerts (l ++ [f e]) = (l ++ [f e]).drop 1 := by
          unfold cap_alerts
          rw [if_pos hgt]
          congr 1
          simp [h50]
        rw [hcap]
        have hlen : ((l ++ [f e]).drop 1).length ≤ 50 := by
          simp [h50]
        rw [ih _ hlen]
        have harith1 : ((l ++ [f e]).drop 1).length + es.length - 50 = es.length := by
          simp [h50]
        rw [harith1]
        have harith2 : l.length + (es.length + 1) - 50 = 1 + es.length := by
          omega
        rw [harith2]
        have hassoc : l ++ f e :: es.map f = (l ++ [f e]) ++ es.map f := by
          simp
        rw [hassoc, ← List.drop_drop,
          List.drop_append_of_le_length (show 1 ≤ (l ++ [f e]).length by simp)]
      · have hle : (l ++ [f e]).length ≤ 50 := by
          simp only [List.length_append, List.length_singleton]
          omega
        rw [cap_alerts_of_le _ hle, ih _ hle]
        have harith : (l ++ [f e]).length + es.length - 50
            = l.length + (es.length + 1) - 50 := by
          simp only [List.length_append, List.length_singleton]
          omega
        rw [harith]
        congr 1
        simp

theorem run_triggers_alerts (env : Env) :
    ∀ (events : List (String × String)) (s : HandlerState),
      (run_triggers env s events).dashboard.alerts
        = events.foldl
            (fun acc ev => cap_alerts (acc ++ [mk_dash_alert env ev.1 ev.2]))
            s.dashboard.alerts := by
  intro events
  induction events with
  | nil => intro s; rfl
  | cons e es ih =>
      intro s
      simp only [run_triggers, List.foldl_cons]
      have := ih (trigger_alert env s e.1 e.2)
      simpa [run_triggers, trigger_alert_alerts] using this

theorem calculate_file_hash_eq (env : Env) (p : String) :
    calculate_file_hash env p = (env.fs p).map env.sha256hex := by
  unfold calculate_file_hash
  cases h : env.fs p with
  | none => rfl
  | some bytes =>
      show some (env.sha256hex (sha_loop [] bytes)) = some (env.sha256hex bytes)
      rw [sha_loop_absorbs bytes.length bytes le_rfl []]
      rfl

/-- C1: for a non-directory event, a Created event appends exactly one
alert (type `"New File Detected"`, the Created category) precisely when
the relative path has no baseline entry, a Deleted event appends exactly
one alert (type `"File Deleted"`) precisely when the relative path has a
baseline entry, and directory events of every kind leave the state
untouched. -/
theorem created_deleted_classification (env : Env) (s : HandlerState) (e : RawEvent) :
    (e.is_directory = true →
        on_modified env s e = s ∧ on_created env s e = s ∧ on_deleted env s e = s)
    ∧ (e.is_directory = false →
        (s.baseline.files.lookup (env.relpath e.src_path) = none →
          (on_created env s e).dashboard.alerts
            = cap_alerts (s.dashboard.alerts
                ++ [mk_dash_alert env "New File Detected" e.src_path]))
        ∧ ((s.baseline.files.lookup (env.relpath e.src_path)).isSome = true →
          (on_created env s e).dashboard.alerts = s.dashboard.alerts)
        ∧ ((s.baseline.files.lookup (env.relpath e.src_path)).isSome = true →
          (on_deleted env s e).dashboard.alerts
            = cap_alerts (s.dashboard.alerts
                ++ [mk_dash_alert env "File Deleted" e.src_path]))
        ∧ (s.baseline.files.lookup (env.relpath e.src_path) = none →
          (on_deleted env s e).dashboard.alerts = s.dashboard.alerts)) :=
  ⟨fun hd => ⟨on_modified_dir env s e hd, on_created_dir env s e hd,
      on_deleted_dir env s e hd⟩,
   fun hd => ⟨fun hl => on_created_alerts_none env s e hd hl,
      fun hl => on_created_alerts_some env s e hd hl,
      fun hl => on_deleted_alerts_some env s e hd hl,
      fun hl => on_deleted_alerts_none env s e hd hl⟩⟩

/-- Witness for C1: concrete runs covering the directory case, both
Created cases and both Deleted cases. -/
theorem created_deleted_classification_witness :
    on_created env0 sEmpty evDir = sEmpty
    ∧ (on_created env0 sEmpty ev0).dashboard.alerts
        = cap_alerts (sEmpty.dashboard.alerts
            ++ [mk_dash_alert env0 "New File Detected" ev0.src_path])
    ∧ (on_created env0 sHas ev0).dashboard.alerts = sHas.dashboard.alerts
    ∧ (on_deleted env0 sHas ev0).dashboard.alerts
        = cap_alerts (sHas.dashboard.alerts
            ++ [mk_dash_alert env0 "File Deleted" ev0.src_path])
    ∧ (on_deleted env0 sEmpty ev0).dashboard.alerts = sEmpty.dashboard.alerts :=
  ⟨((created_deleted_classification env0 sEmpty evDir).1 rfl).2.1,
   ((created_deleted_classification env0 sEmpty ev0).2 rfl).1 rfl,
   ((created_deleted_classification env0 sHas ev0).2 rfl).2.1 (by decide),
   ((created_deleted_classification env0 sHas ev0).2 rfl).2.2.1 (by decide),
   ((created_deleted_classification env0 sEmpty ev0).2 rfl).2.2.2 rfl⟩

/-- C2: for a non-directory Modified event on a path with a baseline
entry, an equal digest yields no alert, a differing (nonempty) digest
yields exactly one alert of type `"File Modified"`, and a failed hash
yields no alert; a Modified event on a path with no baseline entry
yields no alert. -/
theorem modified_classification (env : Env) (s : HandlerState) (e : RawEvent)
    (hd : e.is_directory = false) :
    (∀ record, s.baseline.files.lookup (env.relpath e.src_path) = some record →
        (calculate_file_hash env e.src_path = some record.hash →
          (on_modified env s e).dashboard.alerts = s.dashboard.alerts)
        ∧ (∀ dg, calculate_file_hash env e.src_path = some dg → dg ≠ "" →
            dg ≠ record.hash →
            (on_modified env s e).dashboard.alerts
              = cap_alerts (s.dashboard.alerts
                  ++ [mk_dash_alert env "File Modified" e.src_path]))
        ∧ (calculate_file_hash env e.src_path = none →
          (on_modified env s e).dashboard.alerts = s.dashboard.alerts))
    ∧ (s.baseline.files.lookup (env.relpath e.src_path) = none →
        (on_modified env s e).dashboard.alerts = s.dashboard.alerts) := by
  constructor
  · intro record hrec
    refine ⟨?_, ?_, ?_⟩
    · intro hh
      have hpe : process_event env s e.src_path "MODIFIED" = s := by
        rw [process_event_modified, hh, hrec]
        simp
      rw [on_modified_eq env s e hd, hpe, update_dashboard_data_alerts]
    · intro dg hdg hne hdiff
      have hpe : process_event env s e.src_path "MODIFIED"
          = trigger_alert env s "File Modified" e.src_path := by
        rw [process_event_modified, hdg, hrec]
        simp [hne, hdiff]
      rw [on_modified_eq env s e hd, hpe, update_dashboard_data_alerts,
        trigger_alert_alerts]
    · intro hn
      have hpe : process_event env s e.src_path "MODIFIED" = s := by
        rw [process_event_modified, hn, hrec]
      rw [on_modified_eq env s e hd, hpe, update_dashboard_data_alerts]
  · intro hl
    have hpe : process_event env s e.src_path "MODIFIED" = s := by
      rw [process_event_modified, hl]
      cases calculate_file_hash env e.src_path <;> rfl
    rw [on_modified_eq env s e hd, hpe, update_dashboard_data_alerts]

/-- Witness for C2: concrete runs covering the equal-digest,
changed-digest, unreadable-file and untracked-path cases. -/
theorem modified_classification_witness :
    (on_modified env0 sHas ev0).dashboard.alerts = sHas.dashboard.alerts
    ∧ (on_modified envDiff sHas ev0).dashboard.alerts
        = cap_alerts (sHas.dashboard.alerts
            ++ [mk_dash_alert envDiff "File Modified" ev0.src_path])
    ∧ (on_modified envBad sHas ev0).dashboard.alerts = sHas.dashboard.alerts
    ∧ (on_modified env0 sEmpty ev0).dashboard.alerts = sEmpty.dashboard.alerts :=
  ⟨((modified_classification env0 sHas ev0 rfl).1 rec0 (by decide)).1
      (by rw [calculate_file_hash_eq]; decide),
   ((modified_classification envDiff sHas ev0 rfl).1 rec0 (by decide)).2.1 "d2hash"
      (by rw [calculate_file_hash_eq]; decide) (by decide) (by decide),
   ((modified_classification envBad sHas ev0 rfl).1 rec0 (by decide)).2.2
      (by rw [calculate_file_hash_eq]; rfl),
   (modified_classification env0 sEmpty ev0 rfl).2 rfl⟩

/-- C3: starting from an empty history, any sequence of triggers leaves
exactly the 50 most recent alerts in insertion order (the history is the
suffix of the appended sequence obtained by dropping all but the last
50), and in particular the history never exceeds 50 entries. -/
theorem alert_history_window (env : Env) (b : Baseline) (ls : String) (fc : Nat)
    (lu : String) (events : List (String × String)) :
    (run_triggers env ⟨b, ⟨[], ls, fc, lu⟩⟩ events).dashboard.alerts
      = (events.map (fun ev => mk_dash_alert env ev.1 ev.2)).drop (events.length - 50)
    ∧ (run_triggers env ⟨b, ⟨[], ls, fc, lu⟩⟩ events).dashboard.alerts.length ≤ 50 := by
  have h1 : (run_triggers env ⟨b, ⟨[], ls, fc, lu⟩⟩ events).dashboard.alerts
      = (events.map (fun ev => mk_dash_alert env ev.1 ev.2)).drop
          (events.length - 50) := by
    rw [run_triggers_alerts]
    have h2 := foldl_cap_alerts (fun ev => mk_dash_alert env ev.1 ev.2) events []
      (by simp)
    simpa using h2
  refine ⟨h1, ?_⟩
  rw [h1]
  simp only [List.length_drop, List.length_map]
  omega

/-- C4: the notification send maps every SMTP failure to a plain `false`
return (it cannot raise), the resulting history does not depend on the
SMTP outcome, and the freshly built alert is always present in the
history after a trigger. -/
theorem notification_failure_isolated (env : Env) (out1 out2 : Except String Unit)
    (s : HandlerState) (alert_type file_path msg : String) :
    send_alert (Except.error msg) = false
    ∧ trigger_alert { env with smtp := out1 } s alert_type file_path
        = trigger_alert { env with smtp := out2 } s alert_type file_path
    ∧ mk_dash_alert env alert_type file_path
        ∈ (trigger_alert env s alert_type file_path).dashboard.alerts := by
  refine ⟨rfl, rfl, ?_⟩
  rw [trigger_alert_alerts]
  exact mem_cap_alerts_append _ _

/-- C5 (code bug): the details lookup keys are the uppercase kinds
`"MODIFIED"/"CREATED"/"DELETED"` but the lookup key is the last word of
the alert type (`"Modified"`, `"Detected"`, `"Deleted"`), so for all
three alert types actually triggered the lookup misses and the fallback
string is returned — the details never depend on the category, in both
monitor variants. -/
theorem alert_details_ignores_category :
    alert_details "File Modified" = "Security-related change detected"
    ∧ alert_details "New File Detected" = "Security-related change detected"
    ∧ alert_details "File Deleted" = "Security-related change detected"
    ∧ alert_details_v1 "File Modified" = "Unknown change"
    ∧ alert_details_v1 "New File Detected" = "Unknown change"
    ∧ alert_details_v1 "File Deleted" = "Unknown change" := by
  refine ⟨?_, ?_, ?_, ?_, ?_, ?_⟩ <;> decide

/-- C6: the chunked 64 KiB streaming hash of a readable file equals the
one-shot digest of its full byte content — the digest depends on the
byte content alone, not on chunk boundaries; unreadable files fail in
both versions. -/
theorem chunked_hash_eq_oneshot (env : Env) (file_path : String) :
    calculate_file_hash env file_path = hash_oneshot env file_path :=
  calculate_file_hash_eq env file_path

/-- C7: for a non-directory Deleted event on a path with a baseline
entry, exactly one alert of type `"File Deleted"` is appended, the
baseline is not auto-updated, and a repeat Deleted event classifies
identically (again appending one `"File Deleted"` alert against the
unchanged baseline). -/
theorem deleted_idempotent_classification (env : Env) (s : HandlerState) (e : RawEvent)
    (hd : e.is_directory = false)
    (hl : (s.baseline.files.lookup (env.relpath e.src_path)).isSome = true) :
    (on_deleted env s e).baseline = s.baseline
    ∧ (on_deleted env s e).dashboard.alerts
        = cap_alerts (s.dashboard.alerts ++ [mk_dash_alert env "File Deleted" e.src_path])
    ∧ (on_deleted env (on_deleted env s e) e).baseline = s.baseline
    ∧ (on_deleted env (on_deleted env s e) e).dashboard.alerts
        = cap_alerts ((on_deleted env s e).dashboard.alerts
            ++ [mk_dash_alert env "File Deleted" e.src_path]) := by
  have hb := on_deleted_baseline env s e
  have hl2 : ((on_deleted env s e).baseline.files.lookup
      (env.relpath e.src_path)).isSome = true := by
    rw [hb]
    exact hl
  exact ⟨hb, on_deleted_alerts_some env s e hd hl,
    by rw [on_deleted_baseline, hb],
    on_deleted_alerts_some env (on_deleted env s e) e hd hl2⟩

/-- Witness for C7: a concrete tracked path, deleted twice. -/
theorem deleted_idempotent_classification_witness :
    (on_deleted env0 sHas ev0).baseline = sHas.baseline
    ∧ (on_deleted env0 (on_deleted env0 sHas ev0) ev0).dashboard.alerts
        = cap_alerts ((on_deleted env0 sHas ev0).dashboard.alerts
            ++ [mk_dash_alert env0 "File Deleted" ev0.src_path]) :=
  ⟨(deleted_idempotent_classification env0 sHas ev0 rfl (by decide)).1,
   (deleted_idempotent_classification env0 sHas ev0 rfl (by decide)).2.2.2⟩

/-- C8 counterexample: at the `monitor_files.py` recompute point (a
successful baseline load), the reported file count is the metadata
`total_files` value, which differs from the entry count of the mapping
on this concrete baseline (7 versus 0). -/
theorem legacy_file_count_mismatch :
    load_baseline (Except.ok badBaseline) = badBaseline
    ∧ load_baseline_file_count badBaseline = 7
    ∧ badBaseline.files.length = 0
    ∧ load_baseline_file_count badBaseline ≠ badBaseline.files.length :=
  ⟨rfl, rfl, rfl, by decide⟩

/-- C8 amended: at the `SafeBank_FIM` recompute point
(`_update_dashboard_data`) the snapshot file count equals the current
baseline entry count and the alert count equals the current history
length; the legacy `monitor_files.py` load-time recompute reports the
metadata `total_files`, which equals the entry count only when the
metadata is consistent with the mapping. -/
theorem status_snapshot_recompute (now : String) (s : HandlerState) (b : Baseline)
    (m : Metadata) :
    (update_dashboard_data now s).dashboard.file_count
        = (update_dashboard_data now s).baseline.files.length
    ∧ status_snapshot (update_dashboard_data now s)
        = (s.baseline.files.length, s.dashboard.alerts.length)
    ∧ (b.metadata = some m → m.total_files = b.files.length →
        load_baseline_file_count b = b.files.length) := by
  refine ⟨rfl, rfl, ?_⟩
  intro hm ht
  unfold load_baseline_file_count
  rw [hm]
  exact ht

/-- Witness for C8 amended: a baseline whose metadata count matches its
one-entry mapping. -/
theorem status_snapshot_recompute_witness :
    load_baseline_file_count goodBaseline = goodBaseline.files.length :=
  (status_snapshot_recompute "t" sEmpty goodBaseline mGood).2.2 rfl rfl

/-- C9: a failed baseline load yields the empty store, and with that
store every subsequent non-directory Created event appends exactly one
Created alert (cold start). -/
theorem baseline_load_failure_cold_start (msg : String) (env : Env) (d : Dashboard)
    (e : RawEvent) (hd : e.is_directory = false) :
    load_baseline (Except.error msg) = { metadata := none, files := [] }
    ∧ (on_created env { baseline := load_baseline (Except.error msg), dashboard := d }
          e).dashboard.alerts
        = cap_alerts (d.alerts ++ [mk_dash_alert env "New File Detected" e.src_path]) := by
  refine ⟨rfl, ?_⟩
  exact on_created_alerts_none env _ e hd rfl

/-- Witness for C9: a concrete missing-baseline start followed by a
Created event. -/
theorem baseline_load_failure_cold_start_witness :
    (on_created env0
        { baseline := load_baseline (Except.error "missing baseline"),
          dashboard := sEmpty.dashboard } ev0).dashboard.alerts
      = cap_alerts (sEmpty.dashboard.alerts
          ++ [mk_dash_alert env0 "New File Detected" ev0.src_path]) :=
  (baseline_load_failure_cold_start "missing baseline" env0 sEmpty.dashboard ev0 rfl).2

/-- C10: for non-directory Created and Deleted events the handler never
reads the filesystem — two runs differing only in file contents (or
readability) produce identical states, so the verdict and category are
content-independent. -/
theorem created_deleted_content_independent (env : Env)
    (fs1 fs2 : String → Option (List Nat)) (s : HandlerState) (e : RawEvent)
    (hd : e.is_directory = false) :
    on_created { env with fs := fs1 } s e = on_created { env with fs := fs2 } s e
    ∧ on_deleted { env with fs := fs1 } s e = on_deleted { env with fs := fs2 } s e :=
  ⟨rfl, rfl⟩

/-- Witness for C10: a readable and an unreadable filesystem give the
same result on a concrete Created event. -/
theorem created_deleted_content_independent_witness :
    on_created { env0 with fs := fun _ => some [1] } sEmpty ev0
      = on_created { env0 with fs := fun _ => none } sEmpty ev0 :=
  (created_deleted_content_independent env0 (fun _ => some [1]) (fun _ => none)
    sEmpty ev0 rfl).1

end SafeBank
